import Mathlib

/-!
Shallow embedding of the daily digest pipeline (`daily_digest.py`).

The source's core is:
* `GeminiSummarizer.generate_digest` — builds a selection prompt, calls the
  generation service once, extracts integer tokens from the response with
  `re.findall(r'\d+', text)`, takes the first 3, converts to `int`, and keeps
  the papers at the in-range positions; on any exception it falls back to
  `papers[:3]` with indices `[0, 1, 2]`.
* `GeminiSummarizer._create_summary_content` — header, one narrative block per
  selected paper (per-item try/except: a failure appends nothing), then a
  bonus list obtained by `random.sample(remaining, min(3, len(remaining)))`
  where `remaining` is the papers at positions not in `selected_indices`.
* `Configuration` / `Configuration.validate` — environment lookups and a
  truthiness check over the four required values.

External effects are modelled as explicit parameters: the selection response
is an `Option String` (`none` = the service call raised), per-item narrative
generation is a function `Paper → Option String` (`none` = that item's call
raised), and `random.sample`'s randomness source is a choice function
`Nat → Nat` driving a without-replacement sampler over the given population.
-/

structure Paper where
  title : String
  abstract : String
  url : String
  published : String
deriving Repr, DecidableEq

/-- A concrete paper used for witnesses and counterexamples (single decimal
digit tag so that everything kernel-reduces). -/
def mkPaper (i : Nat) : Paper :=
  { title := "T" ++ String.mk [Char.ofNat (48 + i)]
    abstract := "A" ++ String.mk [Char.ofNat (48 + i)]
    url := "http://example.org/" ++ String.mk [Char.ofNat (48 + i)]
    published := "2026-01-0" ++ String.mk [Char.ofNat (48 + i)] }

/-- A concrete 10-paper corpus (N = 10) for witnesses and counterexamples. -/
def tenPapers : List Paper := (List.range 10).map mkPaper

/-! ### Python string primitives, modelled structurally -/

/-- Python's `str.strip()`: drop whitespace from both ends. -/
def pyStrip (s : String) : String :=
  String.mk
    (((s.data.dropWhile Char.isWhitespace).reverse.dropWhile Char.isWhitespace).reverse)

/-- Python's `str.split(",")`: split on every comma; `"".split(",") = ['']`. -/
def pySplitCommaAux : List Char → List Char → List String
  | [], cur => [String.mk cur.reverse]
  | c :: cs, cur =>
    if c = ',' then String.mk cur.reverse :: pySplitCommaAux cs []
    else pySplitCommaAux cs (c :: cur)

def pySplitComma (s : String) : List String := pySplitCommaAux s.data []

/-- Left-to-right removal of every (non-overlapping) occurrence of `pat`:
Python's `str.replace(pat, "")`.  `fuel` is instantiated with the length of
the scanned text, which suffices for any non-empty pattern. -/
def removeOccAux (pat : List Char) : Nat → List Char → List Char
  | _, [] => []
  | 0, s => s
  | fuel + 1, c :: cs =>
    if pat.isPrefixOf (c :: cs) then removeOccAux pat fuel ((c :: cs).drop pat.length)
    else c :: removeOccAux pat fuel cs

/-- Python's `s.replace(pat, "")`. -/
def pyReplaceEmpty (s pat : String) : String :=
  String.mk (removeOccAux pat.data s.data.length s.data)

/-! ### ResponseParser: `re.findall(r'\d+', text)` and `int` conversion -/

/-- Maximal runs of decimal digits in a character list, left to right: the
shallow embedding of `re.findall(r'\d+', text)`.  `cur` accumulates the
current run in reverse. -/
def digitRunsAux : List Char → List Char → List String
  | [], [] => []
  | [], cur => [String.mk cur.reverse]
  | c :: cs, cur =>
    if c.isDigit then digitRunsAux cs (c :: cur)
    else if cur.isEmpty then digitRunsAux cs []
    else String.mk cur.reverse :: digitRunsAux cs []

def digitRuns (s : String) : List String := digitRunsAux s.data []

/-- `int(tok)` for a token made of decimal digits. -/
def tokVal (s : String) : Nat :=
  s.data.foldl (fun acc c => 10 * acc + (c.toNat - 48)) 0

/-- Lines 76–80 of the source: `text = response.text.strip()`,
`ids = re.findall(r'\d+', text)`,
`selected_indices = [int(i) for i in ids[:3]]`. -/
def parseSelectedIndices (text : String) : List Nat :=
  ((digitRuns (pyStrip text)).take 3).map tokVal

/-- Line 81: `[papers[i] for i in selected_indices if 0 <= i < len(papers)]`
(the lower bound is vacuous for naturals, as it is for `\d+` tokens). -/
def selectedPapersOf (papers : List Paper) (idxs : List Nat) : List Paper :=
  idxs.filterMap (fun i => if i < papers.length then papers[i]? else none)

/-- The `selected_indices` value reaching `_create_summary_content`:
parsed from the response on success, the literal `[0, 1, 2]` on exception. -/
def selectionOf (resp : Option String) : List Nat :=
  match resp with
  | some text => parseSelectedIndices text
  | none => [0, 1, 2]

/-- The `selected_papers` value reaching `_create_summary_content`:
the guarded comprehension on success, `papers[:3]` on exception. -/
def selectedOf (papers : List Paper) (resp : Option String) : List Paper :=
  match resp with
  | some text => selectedPapersOf papers (parseSelectedIndices text)
  | none => papers.take 3

/-! ### BonusSampler -/

/-- Line 126: `[p for i, p in enumerate(all_papers) if i not in selected_indices]`. -/
def remaining_papers (all : List Paper) (idxs : List Nat) : List Paper :=
  (all.enum.filter (fun ip => decide (ip.1 ∉ idxs))).map Prod.snd

/-- Without-replacement sampling driven by a choice function `f`: the model of
`random.sample(pop, k)`.  At each step the element at position
`f step % |pop|` is taken and removed from the population; every outcome of
Python's randomness source is realized by some `f`. -/
def sampleWith {α : Type} (f : Nat → Nat) : List α → Nat → List α
  | _, 0 => []
  | [], _ + 1 => []
  | a :: as, k + 1 =>
    let j := f (k + 1) % (a :: as).length
    (a :: as).getD j a :: sampleWith f ((a :: as).eraseIdx j) k

/-- Line 127: `random.sample(remaining_papers, min(3, len(remaining_papers)))`. -/
def bonusPapers (f : Nat → Nat) (all : List Paper) (idxs : List Nat) : List Paper :=
  sampleWith f (remaining_papers all idxs)
    (min 3 (remaining_papers all idxs).length)

/-! ### DigestAssembler -/

/-- Line 90: the digest header with the current date rendered in. -/
def headerHtml (date : String) : String :=
  "<h1>Daily AI Research Digest</h1><p>" ++ date ++ "</p><hr>"

/-- Line 120: `response.text.replace("\x60\x60\x60html", "").replace("\x60\x60\x60", "")`. -/
def stripFences (s : String) : String :=
  pyReplaceEmpty (pyReplaceEmpty s "```html") "```"

/-- Lines 92–123: the per-item narrative loop.  `narr p = none` models the
per-item try/except catching a service error: nothing is appended and the
loop continues with the next selected paper. -/
def narrativeBlocks (narr : Paper → Option String) (selected : List Paper) : List String :=
  selected.filterMap (fun p => (narr p).map stripFences)

/-- Line 132: one bonus list entry. -/
def bonusItem (p : Paper) : String :=
  "<li><a href='" ++ p.url ++ "' style='color: #3498db;'>" ++ p.title ++ "</a></li>"

/-- Lines 129–133: divider, bonus heading and the bonus list. -/
def bonusSection (bonus : List Paper) : String :=
  "<hr><h2>📚 Read More Good Articles</h2>" ++ "<ul style='line-height: 1.8;'>"
    ++ String.join (bonus.map bonusItem) ++ "</ul>"

/-- `_create_summary_content`, lines 89–135. -/
def createSummaryContent (date : String) (narr : Paper → Option String)
    (f : Nat → Nat) (selected : List Paper) (all : List Paper)
    (idxs : List Nat) : String :=
  headerHtml date ++ String.join (narrativeBlocks narr selected)
    ++ bonusSection (bonusPapers f all idxs)

/-- `generate_digest`, lines 49–87: selection (with fallback) followed by
`_create_summary_content`. -/
def generate_digest (date : String) (narr : Paper → Option String)
    (f : Nat → Nat) (papers : List Paper) (resp : Option String) : String :=
  createSummaryContent date narr f (selectedOf papers resp) papers (selectionOf resp)

/-! ### Configuration -/

/-- The four environment variables read by `Configuration.__init__`
(`none` = unset). -/
structure Env where
  gemini_api_key : Option String
  email_address : Option String
  email_password : Option String
  receiver_emails_var : Option String

structure Configuration where
  gemini_api_key : Option String
  email_address : Option String
  email_password : Option String
  receiver_emails : List String

/-- Lines 11–20: `os.getenv` for the three credentials and
`os.getenv("RECEIVER_EMAILS", "").split(",")` for the recipients.  (Python's
`"".split(",")` is `['']`, as is `String.splitOn` here.) -/
def mkConfiguration (env : Env) : Configuration :=
  { gemini_api_key := env.gemini_api_key
    email_address := env.email_address
    email_password := env.email_password
    receiver_emails := pySplitComma (env.receiver_emails_var.getD "") }

/-- Python truthiness of an optional string: `None` and `""` are falsy. -/
def optStrTruthy : Option String → Bool
  | none => false
  | some s => !s.isEmpty

/-- Lines 22–24: `validate` raises `ValueError` iff one of the four values is
falsy; a list is falsy iff it is empty. -/
def Configuration.validate (c : Configuration) : Except String Unit :=
  if optStrTruthy c.gemini_api_key && optStrTruthy c.email_address
      && optStrTruthy c.email_password && !c.receiver_emails.isEmpty
  then Except.ok ()
  else Except.error "Missing required environment variables."

/-- A narrative service that fails on every item (total outage). -/
def narrNone : Paper → Option String := fun _ => none

/-- A narrative service that fails exactly on the paper titled `"T2"` and
answers with the paper's title otherwise. -/
def narrSkipT2 : Paper → Option String :=
  fun p => if p.title = "T2" then none else some p.title

/-- An environment in which the three credentials are present but
`RECEIVER_EMAILS` is unset. -/
def missingRecipientsEnv : Env :=
  { gemini_api_key := some "key"
    email_address := some "sender@example.org"
    email_password := some "pw"
    receiver_emails_var := none }

/-! ### Helper lemmas -/

theorem sampleWith_length {α : Type} (f : Nat → Nat) :
    ∀ (k : Nat) (pop : List α), (sampleWith f pop k).length = min k pop.length
  | 0, _ => by simp [sampleWith]
  | k + 1, [] => by simp [sampleWith]
  | k + 1, a :: as => by
    have hj : f (k + 1) % (a :: as).length < (a :: as).length :=
      Nat.mod_lt _ (by simp)
    rw [show sampleWith f (a :: as) (k + 1)
        = (a :: as).getD (f (k + 1) % (a :: as).length) a
          :: sampleWith f ((a :: as).eraseIdx (f (k + 1) % (a :: as).length)) k
        from rfl]
    rw [List.length_cons, sampleWith_length f k, List.length_eraseIdx_of_lt hj]
    simp only [List.length_cons]
    omega

theorem sampleWith_subset {α : Type} (f : Nat → Nat) :
    ∀ (k : Nat) (pop : List α), ∀ a ∈ sampleWith f pop k, a ∈ pop
  | 0, _ => by simp [sampleWith]
  | k + 1, [] => by simp [sampleWith]
  | k + 1, a :: as => by
    intro x hx
    have hj : f (k + 1) % (a :: as).length < (a :: as).length :=
      Nat.mod_lt _ (by simp)
    simp only [sampleWith] at hx
    rcases List.mem_cons.1 hx with h | h
    · rw [h, List.getD_eq_getElem _ _ hj]
      exact List.getElem_mem hj
    · exact (List.eraseIdx_sublist (a :: as) _).subset
        (sampleWith_subset f k _ x h)

/-- A member of the remainder list occupies an unselected position of the
corpus. -/
theorem mem_remaining_papers {all : List Paper} {idxs : List Nat} {p : Paper}
    (hp : p ∈ remaining_papers all idxs) :
    ∃ i, i < all.length ∧ i ∉ idxs ∧ all[i]? = some p := by
  unfold remaining_papers at hp
  rcases List.mem_map.1 hp with ⟨⟨i, x⟩, hmem, hx⟩
  rcases List.mem_filter.1 hmem with ⟨henum, hdec⟩
  cases hx
  refine ⟨i, ?_, of_decide_eq_true hdec, ?_⟩
  · exact (List.getElem?_eq_some.1 (List.mem_enum_iff_getElem?.1 henum)).1
  · exact List.mem_enum_iff_getElem?.1 henum

/-- Counting the naturals below `N` outside a duplicate-free, `N`-bounded
index list. -/
theorem length_filter_not_mem_range (N : Nat) :
    ∀ (idxs : List Nat), idxs.Nodup → (∀ i ∈ idxs, i < N) →
      ((List.range N).filter (fun i => decide (i ∉ idxs))).length = N - idxs.length
  | [], _, _ => by simp
  | a :: rest, hnd, hb => by
    have hnotmem : a ∉ rest := (List.nodup_cons.1 hnd).1
    have hndrest : rest.Nodup := (List.nodup_cons.1 hnd).2
    have ha : a < N := hb a (List.mem_cons_self a rest)
    have hbrest : ∀ i ∈ rest, i < N := fun i hi => hb i (List.mem_cons_of_mem a hi)
    have hsplit : (List.range N).filter (fun i => decide (i ∉ a :: rest))
        = ((List.range N).filter (fun i => decide (i ∉ rest))).filter (· != a) := by
      rw [List.filter_filter]
      refine List.filter_congr (fun x _ => ?_)
      simp [List.mem_cons, not_or, Bool.and_comm, bne, Bool.beq_eq_decide_eq]
    set L := (List.range N).filter (fun i => decide (i ∉ rest)) with hL
    have hLnd : L.Nodup := List.Nodup.filter _ (List.nodup_range N)
    have haL : a ∈ L := by
      rw [hL]
      exact List.mem_filter.2 ⟨List.mem_range.2 ha, decide_eq_true hnotmem⟩
    have hLlen : L.length = N - rest.length :=
      length_filter_not_mem_range N rest hndrest hbrest
    have hpos : 0 < L.length := List.length_pos_of_mem haL
    rw [hsplit, ← List.Nodup.erase_eq_filter hLnd, List.length_erase_of_mem haL,
      hLlen]
    simp only [List.length_cons]
    omega

/-- Every guarded lookup in the selection comprehension succeeds: the
selected-paper list is exactly as long as the in-range part of the index
list. -/
theorem selectedPapersOf_length (papers : List Paper) :
    ∀ idxs : List Nat, (selectedPapersOf papers idxs).length
      = (idxs.filter (fun i => decide (i < papers.length))).length
  | [] => rfl
  | i :: rest => by
    have ih := selectedPapersOf_length papers rest
    simp only [selectedPapersOf] at ih ⊢
    by_cases h : i < papers.length
    · have hget : papers[i]? = some papers[i] := List.getElem?_eq_getElem h
      simp [List.filterMap_cons, List.filter_cons, h, hget, ih]
    · simp [List.filterMap_cons, List.filter_cons, h, ih]

theorem selectedPapersOf_nil (idxs : List Nat) : selectedPapersOf [] idxs = [] :=
  List.filterMap_eq_nil_iff.2 (fun i _ => by simp)

theorem selectedOf_nil (resp : Option String) : selectedOf [] resp = [] := by
  cases resp with
  | none => rfl
  | some t => exact selectedPapersOf_nil _

/-- With a duplicate-free, in-range selection the remainder has exactly
`N - |selection|` entries. -/
theorem remaining_papers_length (all : List Paper) (idxs : List Nat)
    (hd : idxs.Nodup) (hb : ∀ i ∈ idxs, i < all.length) :
    (remaining_papers all idxs).length = all.length - idxs.length := by
  unfold remaining_papers
  have hcomp : (fun (ip : Nat × Paper) => decide (ip.1 ∉ idxs))
      = ((fun i => decide (i ∉ idxs)) ∘ Prod.fst) := rfl
  rw [List.length_map, ← List.length_map _ Prod.fst, hcomp, ← List.filter_map]
  have hfst : (all.enum.map Prod.fst) = List.range all.length := by
    rw [List.enum_eq_enumFrom, List.enumFrom_map_fst, ← List.range_eq_range']
  rw [hfst]
  exact length_filter_not_mem_range all.length idxs hd hb

/-- Selected papers always come from the corpus. -/
theorem selectedPapersOf_subset (papers : List Paper) (idxs : List Nat) :
    selectedPapersOf papers idxs ⊆ papers := by
  intro a ha
  rcases List.mem_filterMap.1 ha with ⟨i, _, hi⟩
  by_cases h : i < papers.length
  · rw [if_pos h] at hi
    exact List.getElem?_mem hi
  · rw [if_neg h] at hi
    simp at hi

/-! ### Claim theorems -/

/-- C1, counterexample: with N = 10 the parser applied to the text
`"0, 2, 2, 5, 99"` does not return `[0, 2, 5]` — the code takes the first
3 tokens before any range filtering, and never deduplicates. -/
theorem C1_counterexample : parseSelectedIndices "0, 2, 2, 5, 99" ≠ [0, 2, 5] := by
  decide

/-- C1, amended: the parser returns the first 3 integer tokens, with
duplicates kept and the range filter applied only afterwards to the paper
lookup; on `"0, 2, 2, 5, 99"` with the 10-paper corpus it yields indices
`[0, 2, 2]` and papers 0, 2, 2 (paper 2 twice). -/
theorem C1_amended_first_three_tokens :
    parseSelectedIndices "0, 2, 2, 5, 99" = [0, 2, 2] ∧
    selectedOf tenPapers (some "0, 2, 2, 5, 99") = [mkPaper 0, mkPaper 2, mkPaper 2] := by
  decide

/-- C2, counterexample: a service response with no digits parses to zero
valid indices, yet the selection is the empty list, not the fallback
`[0, 1, 2]` — the fallback branch runs only when the service call raises. -/
theorem C2_counterexample :
    parseSelectedIndices "I cannot rank these papers." = [] ∧
    selectionOf (some "I cannot rank these papers.") ≠ [0, 1, 2] := by
  decide

/-- C2, amended: the deterministic fallback (indices `[0, 1, 2]`, papers
`papers[:3]`) is used exactly when the generation call raises; a successful
response that parses to zero valid indices yields an empty selection
instead. -/
theorem C2_amended_fallback_on_error_only (papers : List Paper) :
    selectionOf none = [0, 1, 2] ∧ selectedOf papers none = papers.take 3 ∧
    selectedOf papers (some "I cannot rank these papers.") = [] :=
  ⟨rfl, rfl, rfl⟩

/-- C3, counterexample: with the 10-paper corpus (N = 10 ≥ 3) the selection
produced from `"0, 2, 2, 5, 99"` has a duplicate position, and the one
produced from `"99"` contains a position outside `[0, N)`. -/
theorem C3_counterexample :
    (selectionOf (some "0, 2, 2, 5, 99") = [0, 2, 2] ∧ ¬ List.Nodup [0, 2, 2]) ∧
    (selectionOf (some "99") = [99] ∧ ¬ (99 < tenPapers.length)) := by
  decide

/-- C3, amended: for every corpus and every response the selection index
list and the selected-paper list have length at most 3, and every selected
paper comes from the corpus; distinctness of the index list and membership
of every raw index in `[0, N)` do not hold in general. -/
theorem C3_amended_length_and_membership (papers : List Paper) (resp : Option String) :
    (selectionOf resp).length ≤ 3 ∧ (selectedOf papers resp).length ≤ 3 ∧
    selectedOf papers resp ⊆ papers := by
  refine ⟨?_, ?_, ?_⟩
  · cases resp with
    | none => simp [selectionOf]
    | some t =>
      simp only [selectionOf, parseSelectedIndices, List.length_map]
      exact List.length_take_le 3 _
  · cases resp with
    | none =>
      simp only [selectedOf, List.length_take]
      exact Nat.min_le_left 3 papers.length
    | some t =>
      calc (selectedOf papers (some t)).length
          ≤ (parseSelectedIndices t).length := List.length_filterMap_le _ _
        _ ≤ 3 := by
            simp only [parseSelectedIndices, List.length_map]
            exact List.length_take_le 3 _
  · cases resp with
    | none => exact List.take_subset 3 papers
    | some t => exact selectedPapersOf_subset papers _

/-- C4: every bonus paper occupies a corpus position outside the selected
indices, for every corpus, every selection and every outcome of the
randomness source — the sample is drawn from the precomputed remainder. -/
theorem C4_bonus_disjoint_from_selection (f : Nat → Nat) (all : List Paper)
    (idxs : List Nat) (p : Paper) (hp : p ∈ bonusPapers f all idxs) :
    ∃ i, i < all.length ∧ i ∉ idxs ∧ all[i]? = some p :=
  mem_remaining_papers (sampleWith_subset f _ _ p hp)

/-- C4, witness: with the 10-paper corpus, selection `[0, 1, 2]` and the
always-zero choice function, paper 3 is sampled and sits at an unselected
position. -/
theorem C4_bonus_disjoint_from_selection_witness :
    mkPaper 3 ∈ bonusPapers (fun _ => 0) tenPapers [0, 1, 2] ∧
    ∃ i, i < tenPapers.length ∧ i ∉ [0, 1, 2] ∧ tenPapers[i]? = some (mkPaper 3) :=
  ⟨by decide,
    C4_bonus_disjoint_from_selection (fun _ => 0) tenPapers [0, 1, 2] (mkPaper 3)
      (by decide)⟩

/-- C5: for a duplicate-free selection whose positions lie in `[0, N)`, the
bonus set has size exactly `min 3 (N - |selection|)`, whatever the
randomness source does. -/
theorem C5_bonus_size (f : Nat → Nat) (all : List Paper) (idxs : List Nat)
    (hd : idxs.Nodup) (hb : ∀ i ∈ idxs, i < all.length) :
    (bonusPapers f all idxs).length = min 3 (all.length - idxs.length) := by
  unfold bonusPapers
  rw [sampleWith_length, remaining_papers_length all idxs hd hb]
  omega

/-- C5, witness: 10-paper corpus, selection `[0, 2]`, always-zero choice
function: the bonus set has `min 3 (10 - 2) = 3` entries. -/
theorem C5_bonus_size_witness :
    (bonusPapers (fun _ => 0) tenPapers [0, 2]).length
      = min 3 (tenPapers.length - [0, 2].length) :=
  C5_bonus_size (fun _ => 0) tenPapers [0, 2] (by decide) (by decide)

/-- C8: with the three credentials set but `RECEIVER_EMAILS` unset,
`Configuration.validate` succeeds — `"".split(",")` is `['']`, a non-empty
hence truthy list — so the pipeline starts instead of failing at startup. -/
theorem C8_missing_recipients_not_fatal :
    (mkConfiguration missingRecipientsEnv).validate = Except.ok () ∧
    (mkConfiguration missingRecipientsEnv).receiver_emails = [""] :=
  ⟨rfl, rfl⟩

/-- C6: a generation failure for one selected item produces no fragment for
that item and leaves every other item's fragment in place, in selection
order; the fragment list never exceeds the selection in length.  (The loop
is a total function: no error reaches the caller.) -/
theorem C6_per_item_failure_skips_only_that_item (narr : Paper → Option String)
    (sel₁ sel₂ : List Paper) (p : Paper) (hfail : narr p = none) :
    narrativeBlocks narr (sel₁ ++ p :: sel₂)
      = narrativeBlocks narr sel₁ ++ narrativeBlocks narr sel₂ ∧
    (narrativeBlocks narr (sel₁ ++ p :: sel₂)).length ≤ (sel₁ ++ p :: sel₂).length := by
  constructor
  · simp [narrativeBlocks, List.filterMap_append, List.filterMap_cons, hfail]
  · exact List.length_filterMap_le _ _

/-- C6, witness: with a narrative service that fails exactly on paper 2,
the block list for `[paper 1, paper 2, paper 3]` is the block list for
papers 1 and 3. -/
theorem C6_per_item_failure_skips_only_that_item_witness :
    narrSkipT2 (mkPaper 2) = none ∧
    (narrativeBlocks narrSkipT2 ([mkPaper 1] ++ mkPaper 2 :: [mkPaper 3])
        = narrativeBlocks narrSkipT2 [mkPaper 1]
          ++ narrativeBlocks narrSkipT2 [mkPaper 3] ∧
      (narrativeBlocks narrSkipT2 ([mkPaper 1] ++ mkPaper 2 :: [mkPaper 3])).length
        ≤ ([mkPaper 1] ++ mkPaper 2 :: [mkPaper 3]).length) :=
  ⟨by decide,
    C6_per_item_failure_skips_only_that_item narrSkipT2 [mkPaper 1] [mkPaper 3]
      (mkPaper 2) (by decide)⟩

/-- C7: if narrative generation fails for every selected item the digest is
exactly header plus bonus section — a non-empty document — whatever the
corpus, the selection response and the randomness source were. -/
theorem C7_total_narrative_failure_still_sendable (date : String)
    (narr : Paper → Option String) (f : Nat → Nat) (papers : List Paper)
    (resp : Option String) (hfail : ∀ p, narr p = none) :
    generate_digest date narr f papers resp
      = headerHtml date ++ bonusSection (bonusPapers f papers (selectionOf resp)) ∧
    generate_digest date narr f papers resp ≠ "" := by
  have hblocks : narrativeBlocks narr (selectedOf papers resp) = [] :=
    List.filterMap_eq_nil_iff.2 (fun p _ => by rw [hfail p]; rfl)
  have hdoc : generate_digest date narr f papers resp
      = headerHtml date ++ bonusSection (bonusPapers f papers (selectionOf resp)) := by
    unfold generate_digest createSummaryContent
    rw [hblocks, show String.join [] = "" from rfl, String.append_empty]
  refine ⟨hdoc, ?_⟩
  intro hempty
  rw [hdoc] at hempty
  have hlen := congrArg String.length hempty
  rw [String.length_append] at hlen
  have hhdr : 0 < (headerHtml date).length := by
    unfold headerHtml
    rw [String.length_append, String.length_append]
    have hlit : 0 < ("<h1>Daily AI Research Digest</h1><p>" : String).length := by
      decide
    omega
  have hzero : String.length "" = 0 := rfl
  rw [hzero] at hlen
  omega

/-- C7, witness: with a 10-paper corpus, a failed selection call, an
all-failing narrative service and the always-zero choice function, the
digest is header plus bonus section and is non-empty. -/
theorem C7_total_narrative_failure_still_sendable_witness :
    narrNone (mkPaper 0) = none ∧
    (generate_digest "June 01, 2026" narrNone (fun _ => 0) tenPapers none
        = headerHtml "June 01, 2026"
          ++ bonusSection (bonusPapers (fun _ => 0) tenPapers (selectionOf none)) ∧
      generate_digest "June 01, 2026" narrNone (fun _ => 0) tenPapers none ≠ "") :=
  ⟨rfl,
    C7_total_narrative_failure_still_sendable "June 01, 2026" narrNone
      (fun _ => 0) tenPapers none (fun _ => rfl)⟩

/-- C9: digest assembly is deterministic in its inputs — equal narrative
outcomes on the selected items, an equal bonus draw and an equal date give
byte-identical documents. -/
theorem C9_assembly_deterministic (date : String)
    (narrA narrB : Paper → Option String) (fA fB : Nat → Nat)
    (selected all : List Paper) (idxs : List Nat)
    (hnarr : ∀ p ∈ selected, narrA p = narrB p)
    (hbonus : bonusPapers fA all idxs = bonusPapers fB all idxs) :
    createSummaryContent date narrA fA selected all idxs
      = createSummaryContent date narrB fB selected all idxs := by
  unfold createSummaryContent
  rw [hbonus]
  have hblocks : narrativeBlocks narrA selected = narrativeBlocks narrB selected :=
    List.filterMap_congr (fun p hp => by rw [hnarr p hp])
  rw [hblocks]

/-- C9, witness: two narrative services that agree on the one selected paper
(and the same choice function) assemble byte-identical documents. -/
theorem C9_assembly_deterministic_witness :
    narrNone (mkPaper 2) = narrSkipT2 (mkPaper 2) ∧
    createSummaryContent "d" narrNone (fun _ => 0) [mkPaper 2] tenPapers [0, 1, 2]
      = createSummaryContent "d" narrSkipT2 (fun _ => 0) [mkPaper 2] tenPapers [0, 1, 2] :=
  ⟨by decide,
    C9_assembly_deterministic "d" narrNone narrSkipT2 (fun _ => 0) (fun _ => 0)
      [mkPaper 2] tenPapers [0, 1, 2]
      (fun p hp => by rw [List.mem_singleton.1 hp]; decide) rfl⟩

/-- C10: the data handling is total for every corpus size, including 0 — the
guarded comprehension performs only successful lookups, the fallback slice
truncates, the bonus draw never requests more than the remainder holds, and
the empty corpus still yields header, divider, bonus heading and an empty
list. -/
theorem C10_data_handling_total (papers : List Paper) (idxs : List Nat)
    (f : Nat → Nat) (narr : Paper → Option String) (date : String)
    (resp : Option String) :
    (selectedPapersOf papers idxs).length
        = (idxs.filter (fun i => decide (i < papers.length))).length ∧
    (papers.take 3).length = min 3 papers.length ∧
    (bonusPapers f papers idxs).length = min 3 (remaining_papers papers idxs).length ∧
    min 3 (remaining_papers papers idxs).length ≤ (remaining_papers papers idxs).length ∧
    generate_digest date narr f [] resp
      = headerHtml date
        ++ "<hr><h2>📚 Read More Good Articles</h2><ul style='line-height: 1.8;'></ul>" := by
  refine ⟨selectedPapersOf_length papers idxs, List.length_take 3 papers, ?_, ?_, ?_⟩
  · unfold bonusPapers
    rw [sampleWith_length]
    omega
  · exact Nat.min_le_right 3 _
  · have hrepr : generate_digest date narr f [] resp
        = headerHtml date ++ String.join (narrativeBlocks narr (selectedOf [] resp))
          ++ bonusSection (bonusPapers f [] (selectionOf resp)) := rfl
    have hb0 : bonusPapers f [] (selectionOf resp) = [] := rfl
    have hbs : bonusSection []
        = "<hr><h2>📚 Read More Good Articles</h2><ul style='line-height: 1.8;'></ul>" := by
      decide
    rw [hrepr, selectedOf_nil, hb0, hbs,
      show narrativeBlocks narr [] = [] from rfl,
      show String.join [] = "" from rfl, String.append_empty]
